import Mathlib

/-!
Verification of the two Pyro teaching notebooks (intro notebook and the
Bayesian-neural-network practical).  The notebooks' stochastic functions are
shallowly embedded: a `pyro.sample` call is a request to an abstract sampler
oracle, distributions are represented symbolically by their parameters, and
each model execution is recorded as a value together with the trace of its
sample sites and the number of data-dependent branches it took.
-/

set_option autoImplicit false

namespace PyroModel

/-- Distributions constructed by the notebooks, represented symbolically by
their (rational) parameters. -/
inductive Dist where
  | bernoulli (p : ℚ)
  | normal (loc scale : ℚ)
  deriving DecidableEq

/-- Record of one executed `pyro.sample` site: its name, the distribution
object passed to it, the resulting value, and whether the site was observed
(fixed by conditioning or an `obs=` argument) rather than drawn. -/
structure SampleRec where
  name : String
  dist : Dist
  value : ℚ
  observed : Bool
  deriving DecidableEq

/-- Result of one execution of an embedded stochastic function: the returned
value, the trace of sample sites, and how many data-dependent branches
(conditional expressions on sampled values) the execution took. -/
structure Exec (α : Type) where
  val : α
  trace : List SampleRec
  branches : Nat
  deriving DecidableEq

/-- An abstract sampler: the library RNG answering each named `pyro.sample`
request with a value.  Quantifying over all samplers covers every possible
execution of the stochastic functions. -/
abbrev Sampler := String → Dist → ℚ

/-- Modelled from the spec: the global mutable key-value parameter store owned
by the underlying library (`pyro.param` is "a frontend for Pyro's key-value
parameter store"; its implementation is in the external library, not under
src/).  The store maps parameter names to values. -/
abbrev ParamStore := List (String × ℚ)

/-- Modelled from the spec: `pyro.param(name, init)`.  "the first time
pyro.param is called with a particular name, it stores its argument in the
parameter store and then returns that value.  After that, when it is called
with that name, it returns the value from the parameter store regardless of
any other arguments."  State passing makes the store mutation explicit. -/
def pyroParam (name : String) (init : ℚ) (s : ParamStore) : ℚ × ParamStore :=
  match s.lookup name with
  | some v => (v, s)
  | none => (init, (name, init) :: s)

/-- Modelled from the spec: `pyro.clear_param_store()` empties the store. -/
def clearParamStore (_ : ParamStore) : ParamStore := []

/-- A sample site as reinterpreted by `pyro.condition(model, data)`: if the
site name is a key of `data`, the given value is used and the site is marked
observed; otherwise the sampler draws it. -/
def sampleSite (data : List (String × ℚ)) (σ : Sampler) (name : String)
    (d : Dist) : ℚ × SampleRec :=
  match data.lookup name with
  | some v => (v, ⟨name, d, v, true⟩)
  | none => (σ name d, ⟨name, d, σ name d, false⟩)

/-- A sample site carrying an explicit `obs=` argument: `pyro.sample` returns
the observed value. -/
def sampleObs (name : String) (d : Dist) (v : ℚ) : ℚ × SampleRec :=
  (v, ⟨name, d, v, true⟩)

end PyroModel

namespace Intro

open PyroModel

/-- Embedding of `weather` from the intro notebook.  `cloudy` is drawn from
Bernoulli(0.3); the weather type is the string selected by the conditional
expression on the draw; `loc` and `scale` are looked up in the two literal
dictionaries (a lookup that can fail, modelled by `Option`); `temperature` is
drawn from Normal(loc, scale); the pair is returned.  The single conditional
expression on the sampled value is the one data-dependent branch. -/
def weather (σ : Sampler) : Option (Exec (String × ℚ)) := do
  let cloudy := σ "cloudy" (Dist.bernoulli 0.3)
  let weather_type := if cloudy = 1 then "cloudy" else "sunny"
  let loc ← ([ ("cloudy", (55 : ℚ)), ("sunny", 75) ]).lookup weather_type
  let scale ← ([ ("cloudy", (10 : ℚ)), ("sunny", 15) ]).lookup weather_type
  let temperature := σ "temperature" (Dist.normal loc scale)
  pure { val := (weather_type, temperature),
         trace := [ ⟨ "cloudy", Dist.bernoulli 0.3, cloudy, false⟩,
                    ⟨ "temperature", Dist.normal loc scale, temperature, false⟩ ],
         branches := 1 }

/-- The weather type selected by the conditional expression on the `cloudy`
draw. -/
def weatherType (cloudy : ℚ) : String := if cloudy = 1 then "cloudy" else "sunny"

/-- The `loc` value the dictionary lookup yields for the selected weather
type. -/
def weatherLoc (cloudy : ℚ) : ℚ := if cloudy = 1 then 55 else 75

/-- The `scale` value the dictionary lookup yields for the selected weather
type. -/
def weatherScale (cloudy : ℚ) : ℚ := if cloudy = 1 then 10 else 15

/-- Embedding of `ice_cream_sales` from the intro notebook: it runs `weather`,
computes the expected sales by a conditional expression on the weather type
and temperature, draws `ice_cream` from Normal(expected_sales, 10), and
returns the weather type with the draw.  Its execution takes the branch of
the nested `weather` call plus its own conditional expression. -/
def ice_cream_sales (σ : Sampler) : Option (Exec (String × ℚ)) := do
  let w ← weather σ
  let weather_type := w.val.1
  let temperature := w.val.2
  let expected_sales : ℚ :=
    if weather_type = "sunny" ∧ temperature > 80 then 200 else 50
  let ice_cream := σ "ice_cream" (Dist.normal expected_sales 10)
  pure { val := (weather_type, ice_cream),
         trace := w.trace ++ [ ⟨ "ice_cream", Dist.normal expected_sales 10, ice_cream, false⟩ ],
         branches := w.branches + 1 }

/-- Number of data-dependent branches taken by an execution (0 when the
execution failed before completing). -/
def branchCount {α : Type} (o : Option (Exec α)) : Nat :=
  (o.map Exec.branches).getD 0

/-- A concrete sampler answering every request with 0. -/
def zeroSampler : Sampler := fun _ _ => 0

/-- Embedding of the `scale` model, parameterized by the observation
dictionary a surrounding `pyro.condition` supplies (empty for the bare
model): `weight` is drawn from Normal(10, 1.0), `measurement` from
Normal(weight, 0.75), and the measurement is returned.  No conditional
expression occurs, so the branch count is 0. -/
def scaleM (data : List (String × ℚ)) (σ : Sampler) : Exec ℚ :=
  let w := sampleSite data σ "weight" (Dist.normal 10 1)
  let m := sampleSite data σ "measurement" (Dist.normal w.1 0.75)
  { val := m.1, trace := [ w.2, m.2 ], branches := 0 }

/-- The bare `scale` model (no conditioning). -/
def scale (σ : Sampler) : Exec ℚ := scaleM [] σ

/-- Embedding of `conditioned_scale = pyro.condition(scale,
data=(measurement : torch.tensor(14.)))`: the `scale` model reinterpreted so
that the `measurement` site always uses the value 14 and is marked
observed. -/
def conditioned_scale (σ : Sampler) : Exec ℚ := scaleM [ ("measurement", 14) ] σ

/-- Embedding of `scale_obs`: `weight` is drawn from Normal(10, 1.0) and the
`measurement` site carries the explicit argument `obs=14.`. -/
def scale_obs (σ : Sampler) : Exec ℚ :=
  let w := sampleSite [] σ "weight" (Dist.normal 10 1)
  let m := sampleObs "measurement" (Dist.normal w.1 0.75) 14
  { val := m.1, trace := [ w.2, m.2 ], branches := 0 }

/-- Embedding of the intro notebook's `guide`: parameters `a` and `b` are
fetched from (or initialised to 1 in) the parameter store, and `weight` is
drawn from Normal(a, torch.abs(b)).  The store is threaded explicitly. -/
def guide (store : ParamStore) (σ : Sampler) : Exec ℚ × ParamStore :=
  let pa := pyroParam "a" 1 store
  let pb := pyroParam "b" 1 pa.2
  let w := σ "weight" (Dist.normal pa.1 |pb.1|)
  ({ val := w, trace := [ ⟨ "weight", Dist.normal pa.1 |pb.1|, w, false⟩ ],
     branches := 0 }, pb.2)

/-- The loc expression printed by the analytical-posterior cell,
`(0.75**2 * 10 + 14.) / (1 + 0.75**2)`, in exact rational arithmetic. -/
def analyticalPosteriorLoc : ℚ := (0.75 ^ 2 * 10 + 14) / (1 + 0.75 ^ 2)

/-- The value under the square root in the scale expression printed by the
analytical-posterior cell, `0.75**2/(1 + 0.75**2)`, in exact rational
arithmetic. -/
def analyticalPosteriorScaleSq : ℚ := 0.75 ^ 2 / (1 + 0.75 ^ 2)

end Intro

namespace Practical

open PyroModel

/-- Embedding of `NN.forward` from the BNN notebook over an abstract tensor
type `V`: the layer and activation operations (`x.view(-1, 28*28)`, `fc1`,
`fc2`, `relu`, `log_softmax`) are opaque library primitives, composed in the
source's order.  The second component is the number of data-dependent
branches the execution takes. -/
def nnForward {V : Type} (view fc1 fc2 relu log_softmax : V → V) (x : V) :
    V × Nat :=
  let x1 := view x
  let x2 := relu (fc1 x1)
  let x3 := fc2 x2
  let x4 := log_softmax x3
  (x4, 0)

/-- Embedding of `BNN.forward` over an abstract tensor type `V`: the same
layer composition as `nnForward`, followed by the `obs = pyro.sample("obs",
dist.Categorical(logits=x), obs=y)` site (an opaque library call receiving
the logits and the optional observation).  The Python function body has no
return statement, so every execution returns None, modelled as `none`.  The
second component is the number of data-dependent branches taken. -/
def bnnForward {V : Type} (view fc1 fc2 relu log_softmax : V → V)
    (sampleObsSite : V → Option V → V) (x : V) (y : Option V) :
    Option V × Nat :=
  let x1 := view x
  let x2 := relu (fc1 x1)
  let x3 := fc2 x2
  let x4 := log_softmax x3
  let _obs := sampleObsSite x4 y
  (none, 0)

/-- Embedding of the BNN notebook's `guide(x, y=None)`: its body is a bare
TODO comment, so it contains no statements and every call returns None,
modelled as `none`. -/
def bnnGuide {α β : Type} (x : α) (y : Option β) : Option Unit := none

/-- Arguments of one `datasets.MNIST` call in the BNN notebook. -/
structure MNISTLoadArgs where
  root : String
  train : Bool
  download : Bool
  deriving DecidableEq

/-- Arguments of the `train_dataset = datasets.MNIST(...)` call. -/
def train_dataset_args : MNISTLoadArgs :=
  { root := "./data", train := true, download := true }

/-- Arguments of the `test_dataset = datasets.MNIST(...)` call. -/
def test_dataset_args : MNISTLoadArgs :=
  { root := "./data", train := false, download := true }

/-- The `letters` list of the BNN notebook. -/
def letters : List String :=
  [ "a", "b", "c", "d", "e", "f", "g", "h", "i", "j" ]

/-- The bundled image files opened by the letters cell:
`Image.open("data/not-mnist/%s.png" % l)` for each letter `l`. -/
def letterImagePaths : List String :=
  letters.map (fun l => "data/not-mnist/" ++ l ++ ".png")

end Practical

namespace SrcText

/-!
Verbatim source text of the user-defined functions and of the exercise code
cells, one string per physical source line.  Lines are right-trimmed (a
whitespace-only line becomes the empty string); an apostrophe is written
\x27 and curly braces are written \x7b and \x7d.
-/

/-- Source lines of `weather` in the intro notebook. -/
def weatherSrc : List String :=
  [ "def weather():",
    "    \"Our Pyro model of the weather\"",
    "",
    "    # define cloudy as a random variable with a Bernoulli prior distribution",
    "    cloudy = pyro.sample(\x27cloudy\x27, dist.Bernoulli(0.3))",
    "",
    "    # define temperature as a random variable, through its conditional distribution with cloudy",
    "    weather_type = \x27cloudy\x27 if cloudy.item() == 1.0 else \x27sunny\x27",
    "    loc = \x7b\x27cloudy\x27: 55.0, \x27sunny\x27: 75.0\x7d[weather_type]",
    "    scale = \x7b\x27cloudy\x27: 10.0, \x27sunny\x27: 15.0\x7d[weather_type]",
    "    temperature = pyro.sample(\x27temperature\x27, dist.Normal(loc, scale))",
    "",
    "    return weather_type, temperature" ]

/-- Source lines of `ice_cream_sales` in the intro notebook. -/
def iceCreamSalesSrc : List String :=
  [ "def ice_cream_sales():",
    "    \"Another Pyro model\"",
    "",
    "    # define ice_cream as a random variable, through its conditional distribution with cloudy and temperature",
    "    weather_type, temperature = weather()",
    "    expected_sales = 200. if weather_type == \x27sunny\x27 and temperature > 80.0 else 50.",
    "    ice_cream = pyro.sample(\x27ice_cream\x27, pyro.distributions.Normal(expected_sales, 10.0))# number of ice cream sales",
    "    return weather_type, ice_cream" ]

/-- Source lines of `scale` in the intro notebook. -/
def scaleSrc : List String :=
  [ "def scale():",
    "    weight = pyro.sample(\"weight\", dist.Normal(10, 1.0))",
    "    measurement = pyro.sample(\"measurement\", dist.Normal(weight, 0.75))",
    "    return measurement" ]

/-- Source lines of `guide` in the intro notebook. -/
def guideSrc : List String :=
  [ "def guide():",
    "    \"Defines an approximate distribution Q we will fit to the posterior\"",
    "",
    "    # here, we define Q as a normal distribution, with flexible (trainable) parameters a and b",
    "    a = pyro.param(\"a\", torch.tensor(1.))",
    "    b = pyro.param(\"b\", torch.tensor(1.))",
    "    return pyro.sample(\"weight\", dist.Normal(a, torch.abs(b)))" ]

/-- Source lines of the `NN` class in the BNN notebook. -/
def nnClassSrc : List String :=
  [ "class NN(torch.nn.Module):",
    "",
    "    def __init__(self, input_size, hidden_size, output_size):",
    "        super().__init__()",
    "        self.fc1 = torch.nn.Linear(input_size, hidden_size)",
    "        self.fc2 = torch.nn.Linear(hidden_size, output_size)",
    "        self.relu = torch.nn.ReLU()",
    "        self.log_softmax = torch.nn.LogSoftmax(dim=1)",
    "",
    "    def forward(self, x):",
    "        x = x.view(-1, 28*28)",
    "        x = self.relu(self.fc1(x))",
    "        x = self.fc2(x)",
    "        x = self.log_softmax(x)# output (log) softmax probabilities of each class",
    "        return x" ]

/-- Source lines of the `BNN` class in the BNN notebook. -/
def bnnClassSrc : List String :=
  [ "class BNN(pyro.nn.PyroModule):",
    "",
    "    def __init__(self, input_size, hidden_size, output_size):",
    "        super().__init__()",
    "",
    "        self.fc1 = PyroLinear(input_size, hidden_size)",
    "        self.fc1.weight = pyro.nn.PyroSample(dist.Normal(0., 1.).expand([hidden_size, input_size]).to_event(2))",
    "        self.fc1.bias   = pyro.nn.PyroSample(dist.Normal(0., 1.).expand([hidden_size]).to_event(1))",
    "",
    "        self.fc2 = PyroLinear(hidden_size, output_size)",
    "        self.fc2.weight = pyro.nn.PyroSample(dist.Normal(0., 1.).expand([output_size, hidden_size]).to_event(2))",
    "        self.fc2.bias   = pyro.nn.PyroSample(dist.Normal(0., 1.).expand([output_size]).to_event(1))",
    "",
    "        self.relu = torch.nn.ReLU()",
    "        self.log_softmax = torch.nn.LogSoftmax(dim=1)",
    "",
    "    def forward(self, x, y=None):",
    "        x = x.view(-1, 28*28)",
    "        x = self.relu(self.fc1(x))",
    "        x = self.fc2(x)",
    "        x = self.log_softmax(x)# output (log) softmax probabilities of each class",
    "",
    "        with pyro.plate(\"data\", x.shape[0]):",
    "            obs = pyro.sample(\"obs\", dist.Categorical(logits=x), obs=y)" ]

/-- Total number of source lines. -/
def sourceLineCount (src : List String) : Nat := src.length

/-- Number of non-blank source lines. -/
def codeLineCount (src : List String) : Nat :=
  (src.filter (fun s => s != "")).length

/-- An exercise task of a notebook together with its corresponding code
cell. -/
structure TaskCell where
  task : String
  cell : List String

/-- The code cell consisting of the bare TODO marker. -/
def todoOnlyCell : List String :=
  [ "## TODO: write some code here", "" ]

/-- Code cell of intro notebook Task 1. -/
def introTask1Cell : List String :=
  [ "import matplotlib.pyplot as plt", "", "## TODO: write some code here", "" ]

/-- Code cell of intro notebook Task 2. -/
def introTask2Cell : List String :=
  [ "posterior = sampler.get_samples()",
    "print(type(posterior))# note, this is just a python dictionary!",
    "",
    "## TODO: write some code here",
    "" ]

/-- Code cell of intro notebook Extension Task 1 (the analytical posterior
is worked out in it, so it is not a TODO stub). -/
def introExtTask1Cell : List String :=
  [ "import numpy as np",
    "print(\"True analytical posterior parameters:\")",
    "print(\"loc = \", (0.75**2 * 10 + 14.) / (1 + 0.75**2))",
    "print(\"scale = \", np.sqrt(0.75**2/(1 + 0.75**2)))" ]

/-- Code cell of BNN notebook Tasks 2 and 3. -/
def bnnTask23Cell : List String :=
  [ "loss_function = torch.nn.NLLLoss()# negative log likelihood loss",
    "optimizer = torch.optim.Adam(nn.parameters(), lr=0.01)",
    "num_epochs = 5",
    "",
    "## TODO: write some code here",
    "" ]

/-- Code cell of BNN notebook Task 5 (the guide stub). -/
def bnnTask5Cell : List String :=
  [ "def guide(x, y=None):", "", "    ## TODO: write some code here", "" ]

/-- Code cell of BNN notebook Task 6. -/
def bnnTask6Cell : List String :=
  [ "pyro.clear_param_store()",
    "svi = SVI(model=bnn,",
    "          guide=guide,",
    "          optim=Adam(\x7b\"lr\": 1e-2\x7d),",
    "          loss=Trace_ELBO(num_particles=1))",
    "num_epochs = 5",
    "",
    "## TODO: write some code here",
    "" ]

/-- Every exercise task of the two notebooks that has a corresponding code
cell (the BNN notebook's extension questions have none), with that cell.
Intro Tasks 3 and 4 share one cell, as do BNN Tasks 2 and 3. -/
def allTaskCells : List TaskCell :=
  [ ⟨ "intro Task 1", introTask1Cell⟩,
    ⟨ "intro Task 2", introTask2Cell⟩,
    ⟨ "intro Task 3", todoOnlyCell⟩,
    ⟨ "intro Task 4", todoOnlyCell⟩,
    ⟨ "intro Extension Task 1", introExtTask1Cell⟩,
    ⟨ "bnn Task 1", todoOnlyCell⟩,
    ⟨ "bnn Task 2", bnnTask23Cell⟩,
    ⟨ "bnn Task 3", bnnTask23Cell⟩,
    ⟨ "bnn Task 4", todoOnlyCell⟩,
    ⟨ "bnn Task 5", bnnTask5Cell⟩,
    ⟨ "bnn Task 6", bnnTask6Cell⟩,
    ⟨ "bnn Task 7", todoOnlyCell⟩,
    ⟨ "bnn Task 8", todoOnlyCell⟩ ]

/-- The notebooks' TODO marker line (possibly indented inside a function
body). -/
def isTodoMarker (s : String) : Bool :=
  s == "## TODO: write some code here" || s == "    ## TODO: write some code here"

/-- A cell is an unfinished TODO stub when its last non-blank line is the
TODO marker: the cell carries the marker and no solution code was written at
or after it. -/
def isUnfinishedStub (cell : List String) : Bool :=
  match (cell.filter (fun s => s != "")).getLast? with
  | some s => isTodoMarker s
  | none => false

/-- Imports cell of the intro notebook. -/
def introImportsCell : List String :=
  [ "import torch", "import pyro", "pyro.set_rng_seed(101)" ]

/-- The torch.distributions.Normal sampling cell of the intro notebook. -/
def introNormalCell : List String :=
  [ "loc = 0.   # mean zero",
    "scale = 1. # unit variance",
    "normal = torch.distributions.Normal(loc, scale) # create a normal distribution object",
    "x = normal.rsample() # draw a sample from N(0,1)",
    "print(\"sample: \", x, type(x))# returns a pytorch tensor" ]

/-- The pyro.sample cell of the intro notebook. -/
def introPyroSampleCell : List String :=
  [ "import pyro.distributions as dist",
    "",
    "x = pyro.sample(\"my_sample\", pyro.distributions.Normal(loc, scale))",
    "print(x, type(x))" ]

/-- The weather cell of the intro notebook: the `weather` definition followed
by the sampling loop. -/
def introWeatherCell : List String :=
  weatherSrc ++
  [ "",
    "for _ in range(3):",
    "    weather_type, temperature = weather()",
    "    print(\"The weather is: %s and the temperature is: %.2f\"%(weather_type, temperature.item()))" ]

/-- The ice_cream_sales cell of the intro notebook. -/
def introIceCreamCell : List String :=
  iceCreamSalesSrc ++ [ "", "print(ice_cream_sales())" ]

/-- The scale cell of the intro notebook. -/
def introScaleCell : List String :=
  scaleSrc ++ [ "print(scale())" ]

/-- The pyro.condition cell of the intro notebook. -/
def introConditionCell : List String :=
  [ "conditioned_scale = pyro.condition(scale, data=\x7b\"measurement\": torch.tensor(14.)\x7d)" ]

/-- The scale_obs cell of the intro notebook. -/
def introScaleObsCell : List String :=
  [ "def scale_obs():  # equivalent to conditioned_scale above",
    "    weight = pyro.sample(\"weight\", dist.Normal(10, 1.0))",
    "    measurement = pyro.sample(\"measurement\", dist.Normal(weight, 0.75), obs=14.)",
    "    return measurement" ]

/-- The MCMC cell of the intro notebook. -/
def introMcmcCell : List String :=
  [ "from pyro.infer.mcmc import MCMC",
    "from pyro.infer.mcmc.nuts import HMC",
    "",
    "hmc_kernel = HMC(conditioned_scale, step_size=0.9, num_steps=4)# defines a HMC kernel",
    "sampler = MCMC(hmc_kernel, # uses MCMC with HMC kernel",
    "               num_samples=1000, # generates 1000 samples",
    "               warmup_steps=50)# burn-in of 50 steps",
    "sampler.run()",
    "sampler.summary()" ]

/-- The pyro.param printing cell of the intro notebook. -/
def introParamPrintCell : List String :=
  [ "a = pyro.param(\"new_param\", torch.tensor(1.))",
    "print(a, a.requires_grad)" ]

/-- The parameter-store demonstration cell of the intro notebook. -/
def introParamStoreCell : List String :=
  [ "a = pyro.param(\"new_param\", torch.tensor(10.))# value of 10. is ignored (!)",
    "print(a, a.requires_grad)",
    "",
    "pyro.clear_param_store()",
    "a = pyro.param(\"new_param\", torch.tensor(10.))",
    "print(a, a.requires_grad)" ]

/-- The SVI training cell of the intro notebook. -/
def introSviCell : List String :=
  [ "from pyro.infer import SVI, Trace_ELBO",
    "from pyro.optim import SGD",
    "",
    "pyro.clear_param_store()",
    "svi = SVI(model=conditioned_scale,",
    "          guide=guide,",
    "          optim=SGD(\x7b\"lr\": 0.001, \"momentum\":0.1\x7d),",
    "          loss=Trace_ELBO(num_particles=1))# num_particles is the number of MC samples used to estimate ELBO",
    "",
    "losses, a,b  = [], [], []",
    "num_steps = 2500",
    "for i in range(num_steps):",
    "    losses.append(svi.step())",
    "    a.append(pyro.param(\"a\").item())",
    "    b.append(pyro.param(\"b\").item())",
    "",
    "print(\x27a = \x27, a[-1])",
    "print(\x27b = \x27, b[-1])" ]

/-- The trailing empty code cell each notebook ends with. -/
def emptyCell : List String := []

/-- Imports cell of the BNN notebook. -/
def bnnImportsCell : List String :=
  [ "import os",
    "from PIL import Image",
    "",
    "import numpy as np",
    "import matplotlib.pyplot as plt",
    "",
    "import torch",
    "from torch.utils.data import Dataset",
    "from torch.utils.data import DataLoader",
    "from torchvision import datasets, transforms",
    "",
    "import pyro",
    "import pyro.distributions as dist",
    "from pyro.infer import SVI, Trace_ELBO",
    "from pyro.optim import Adam",
    "",
    "pyro.set_rng_seed(101)" ]

/-- The MNIST loading cell of the BNN notebook. -/
def bnnMnistCell : List String :=
  [ "train_dataset = datasets.MNIST(\x27./data\x27, train=True, download=True,",
    "                               transform=transforms.Compose([",
    "                               transforms.ToTensor(),",
    "                               ]))",
    "",
    "test_dataset = datasets.MNIST(\x27./data\x27, train=False, download=True,",
    "                              transform=transforms.Compose([",
    "                              transforms.ToTensor(),",
    "                              ]))",
    "",
    "train_loader = torch.utils.data.DataLoader(train_dataset, batch_size=128, shuffle=True)",
    "test_loader  = torch.utils.data.DataLoader(test_dataset,  batch_size=128, shuffle=True)" ]

/-- The NN cell of the BNN notebook: the class followed by its
instantiation. -/
def nnCell : List String :=
  nnClassSrc ++ [ "", "nn = NN(28*28, 512, 10)" ]

/-- The letters cell of the BNN notebook: it loads the bundled not-mnist
letter images and plots them unconditionally (no TODO gate). -/
def lettersCell : List String :=
  [ "# load the test letter dataset",
    "letters = [\"a\",\"b\",\"c\",\"d\",\"e\",\"f\",\"g\",\"h\",\"i\",\"j\"]",
    "x_letters = np.array([np.array(Image.open(\"data/not-mnist/%s.png\"%(l)))",
    "                         for l in letters]).astype(np.float32)# loads letters data",
    "x_letters /= np.max(x_letters, axis=(1,2), keepdims=True)# normalise",
    "x_letters = torch.from_numpy(x_letters)",
    "",
    "# plot the letters test data",
    "plt.figure(figsize=(14,3))",
    "for iplot,i in enumerate([0,1,2,3]):",
    "    plt.subplot(1,4,iplot+1)",
    "    plt.imshow(x_letters[i].numpy())",
    "    plt.title(letters[i])",
    "plt.show()" ]

/-- The BNN module cell of the BNN notebook: the PyroLinear alias, the class,
and its instantiation. -/
def bnnModuleCell : List String :=
  [ "PyroLinear = pyro.nn.PyroModule[torch.nn.Linear]", "" ] ++
  bnnClassSrc ++ [ "", "bnn = BNN(28*28, 512, 10)" ]

/-- The commented-out autoguide cell of the BNN notebook. -/
def bnnAutoguideCell : List String :=
  [ "#guide = pyro.infer.autoguide.AutoDiagonalNormal(bnn)" ]

/-- Every code cell of the two notebooks, in order. -/
def allCodeCells : List (List String) :=
  [ introImportsCell, introNormalCell, introPyroSampleCell, introWeatherCell,
    introIceCreamCell, introTask1Cell, introScaleCell, introConditionCell,
    introScaleObsCell, introMcmcCell, introTask2Cell, guideSrc,
    introParamPrintCell, introExtTask1Cell, introParamStoreCell, introSviCell,
    todoOnlyCell, emptyCell,
    bnnImportsCell, bnnMnistCell, todoOnlyCell, nnCell, bnnTask23Cell,
    lettersCell, todoOnlyCell, bnnModuleCell, bnnTask5Cell, bnnAutoguideCell,
    bnnTask6Cell, todoOnlyCell, todoOnlyCell, emptyCell ]

/-- Test whether the first character list starts the second. -/
def isPrefixChars : List Char → List Char → Bool
  | [], _ => true
  | _ :: _, [] => false
  | p :: ps, c :: cs => p == c && isPrefixChars ps cs

/-- Test whether the first character list occurs inside the second. -/
def isSubstrChars (pat : List Char) : List Char → Bool
  | [] => isPrefixChars pat []
  | c :: cs => isPrefixChars pat (c :: cs) || isSubstrChars pat cs

/-- A cell contains a plot call when one of its lines mentions
`matplotlib.pyplot` via the `plt.` name the notebooks import it under. -/
def containsPlotCall (cell : List String) : Bool :=
  cell.any (fun s => isSubstrChars ("plt.".data) s.data)

end SrcText

namespace Errors

open PyroModel

/-- A fallible sampler: each `pyro.sample` library call either returns a
value or raises an exception of abstract type `ε` (invalid parameters, shape
mismatch, missing observation — the repository cannot inspect or build
values of `ε`). -/
abbrev FallibleSampler (ε : Type) := String → Dist → Except ε ℚ

/-- Python dictionary subscript: yields the stored value, or raises the
runtime's KeyError (supplied abstractly as `keyError`). -/
def dictGet {ε : Type} (keyError : ε) (d : List (String × ℚ)) (k : String) :
    Except ε ℚ :=
  match d.lookup k with
  | some v => Except.ok v
  | none => Except.error keyError

/-- The `weather` function with exception-propagating library calls.  The
function has no handler: each call's result is consumed by the next step
directly. -/
def weatherE {ε : Type} (keyError : ε) (σ : FallibleSampler ε) :
    Except ε (String × ℚ) := do
  let cloudy ← σ "cloudy" (Dist.bernoulli 0.3)
  let weather_type := if cloudy = 1 then "cloudy" else "sunny"
  let loc ← dictGet keyError [ ("cloudy", (55 : ℚ)), ("sunny", 75) ] weather_type
  let scale ← dictGet keyError [ ("cloudy", (10 : ℚ)), ("sunny", 15) ] weather_type
  let temperature ← σ "temperature" (Dist.normal loc scale)
  pure (weather_type, temperature)

/-- The `scale` function with exception-propagating library calls. -/
def scaleE {ε : Type} (σ : FallibleSampler ε) : Except ε ℚ := do
  let weight ← σ "weight" (Dist.normal 10 1)
  let measurement ← σ "measurement" (Dist.normal weight 0.75)
  pure measurement

/-- The intro notebook's `guide` with an exception-propagating sampler. -/
def guideE {ε : Type} (store : ParamStore) (σ : FallibleSampler ε) :
    Except ε ℚ × ParamStore :=
  let pa := pyroParam "a" 1 store
  let pb := pyroParam "b" 1 pa.2
  (σ "weight" (Dist.normal pa.1 |pb.1|), pb.2)

/-- `BNN.forward` with exception-propagating library primitives (layer
applications, activation, and the observed sample site). -/
def bnnForwardE {V ε : Type} (view fc1 fc2 relu log_softmax : V → Except ε V)
    (sampleObsSite : V → Option V → Except ε V) (x : V) (y : Option V) :
    Except ε (Option V) := do
  let x1 ← view x
  let x2 ← fc1 x1
  let x3 ← relu x2
  let x4 ← fc2 x3
  let x5 ← log_softmax x4
  let _obs ← sampleObsSite x5 y
  pure none

end Errors

namespace Intro

open PyroModel

/-- Normal form of a `weather` execution: both dictionary lookups succeed and
the function returns the weather type together with the temperature drawn
from the selected Normal distribution. -/
theorem weather_run (σ : Sampler) :
    weather σ = some
      { val := (weatherType (σ "cloudy" (Dist.bernoulli 0.3)),
                σ "temperature"
                  (Dist.normal (weatherLoc (σ "cloudy" (Dist.bernoulli 0.3)))
                               (weatherScale (σ "cloudy" (Dist.bernoulli 0.3))))),
        trace := [ ⟨ "cloudy", Dist.bernoulli 0.3, σ "cloudy" (Dist.bernoulli 0.3), false⟩,
                   ⟨ "temperature",
                     Dist.normal (weatherLoc (σ "cloudy" (Dist.bernoulli 0.3)))
                                 (weatherScale (σ "cloudy" (Dist.bernoulli 0.3))),
                     σ "temperature"
                       (Dist.normal (weatherLoc (σ "cloudy" (Dist.bernoulli 0.3)))
                                    (weatherScale (σ "cloudy" (Dist.bernoulli 0.3)))),
                     false⟩ ],
        branches := 1 } := by
  by_cases h : σ "cloudy" (Dist.bernoulli 0.3) = 1 <;>
    simp [weather, weatherType, weatherLoc, weatherScale, h, List.lookup]

end Intro

namespace Errors

open PyroModel

/-- Bind on `Except` yields an error exactly when its first step does, or its
first step succeeds and the continuation errors — the error value itself is
passed through unchanged. -/
theorem except_bind_error {ε α β : Type} (x : Except ε α) (f : α → Except ε β)
    (e : ε) :
    (x >>= f = Except.error e) ↔
      x = Except.error e ∨ ∃ a, x = Except.ok a ∧ f a = Except.error e := by
  cases x <;> simp [Bind.bind, Except.bind]

/-- Mapping a pure function over an `Except` neither creates nor changes an
error. -/
theorem except_map_error {ε α β : Type} (g : α → β) (x : Except ε α) (e : ε) :
    (g <$> x = Except.error e) ↔ x = Except.error e := by
  cases x <;> simp [Functor.map, Except.map]

/-- Normal form of `weatherE`: the dictionary lookups never raise, so the
run is the `cloudy` call bound into the `temperature` call. -/
theorem weatherE_eq {ε : Type} (keyError : ε) (σ : FallibleSampler ε) :
    weatherE keyError σ =
      (σ "cloudy" (Dist.bernoulli 0.3)) >>= fun c =>
        (σ "temperature"
            (Dist.normal (Intro.weatherLoc c) (Intro.weatherScale c))) >>= fun t =>
          pure (Intro.weatherType c, t) := by
  unfold weatherE
  cases h : σ "cloudy" (Dist.bernoulli 0.3) with
  | error e => simp [Bind.bind, Except.bind]
  | ok c =>
    by_cases hc : c = 1 <;>
      simp [Bind.bind, Except.bind, dictGet, List.lookup, hc,
            Intro.weatherType, Intro.weatherLoc, Intro.weatherScale]

/-- Errors of `weatherE` are exactly the errors of its two library calls,
unchanged. -/
theorem weatherE_error_iff {ε : Type} (keyError : ε) (σ : FallibleSampler ε)
    (e : ε) :
    weatherE keyError σ = Except.error e ↔
      σ "cloudy" (Dist.bernoulli 0.3) = Except.error e ∨
      ∃ c, σ "cloudy" (Dist.bernoulli 0.3) = Except.ok c ∧
        σ "temperature"
            (Dist.normal (Intro.weatherLoc c) (Intro.weatherScale c)) =
          Except.error e := by
  rw [weatherE_eq]
  simp [except_bind_error, except_map_error]

/-- Errors of `scaleE` are exactly the errors of its two library calls,
unchanged. -/
theorem scaleE_error_iff {ε : Type} (σ : FallibleSampler ε) (e : ε) :
    scaleE σ = Except.error e ↔
      σ "weight" (Dist.normal 10 1) = Except.error e ∨
      ∃ w, σ "weight" (Dist.normal 10 1) = Except.ok w ∧
        σ "measurement" (Dist.normal w 0.75) = Except.error e := by
  unfold scaleE
  simp [except_bind_error]

/-- Errors of `guideE` are exactly the errors of its sample call,
unchanged. -/
theorem guideE_error_iff {ε : Type} (store : ParamStore)
    (σ : FallibleSampler ε) (e : ε) :
    (guideE store σ).1 = Except.error e ↔
      σ "weight"
          (Dist.normal (pyroParam "a" 1 store).1
            |(pyroParam "b" 1 (pyroParam "a" 1 store).2).1|) =
        Except.error e := Iff.rfl

/-- Errors of `bnnForwardE` are exactly the errors of its six library calls,
unchanged. -/
theorem bnnForwardE_error_iff {V ε : Type}
    (view fc1 fc2 relu log_softmax : V → Except ε V)
    (sampleObsSite : V → Option V → Except ε V) (x : V) (y : Option V)
    (e : ε) :
    bnnForwardE view fc1 fc2 relu log_softmax sampleObsSite x y =
        Except.error e ↔
      view x = Except.error e ∨
      ∃ a, view x = Except.ok a ∧
        (fc1 a = Except.error e ∨
        ∃ b, fc1 a = Except.ok b ∧
          (relu b = Except.error e ∨
          ∃ c, relu b = Except.ok c ∧
            (fc2 c = Except.error e ∨
            ∃ d, fc2 c = Except.ok d ∧
              (log_softmax d = Except.error e ∨
              ∃ l, log_softmax d = Except.ok l ∧
                sampleObsSite l y = Except.error e)))) := by
  unfold bnnForwardE
  simp [except_bind_error, except_map_error]

end Errors

namespace PyroModel

/-- C4: against the modelled global key-value store, the first `pyro.param`
call with a name stores and returns the supplied initial value; a subsequent
call with that name returns the stored value regardless of the new
initial-value argument; `clear_param_store` empties any store; and the next
call after clearing stores and returns its new initial value. -/
theorem pyroParam_store_spec (name : String) (v w : ℚ) :
    pyroParam name v [] = (v, [ (name, v) ]) ∧
    (∀ (s : ParamStore) (u : ℚ), pyroParam name u ((name, v) :: s) = (v, (name, v) :: s)) ∧
    (∀ (s : ParamStore), clearParamStore s = []) ∧
    pyroParam name w (clearParamStore [ (name, v) ]) = (w, [ (name, w) ]) := by
  refine ⟨rfl, ?_, fun _ => rfl, rfl⟩
  intro s u
  simp [pyroParam, List.lookup]

end PyroModel

namespace Intro

open PyroModel

/-- C1: every execution of the weather model draws `cloudy` from
Bernoulli(0.3); if the draw equals 1 it sets the weather type to "cloudy"
and draws `temperature` from Normal(55, 10), otherwise it sets the weather
type to "sunny" and draws `temperature` from Normal(75, 15); it returns the
pair, and the two dictionary lookups always succeed (the run always yields
`some`). -/
theorem weather_model_spec (σ : Sampler) :
    weather σ = some
      { val := ((if σ "cloudy" (Dist.bernoulli 0.3) = 1 then "cloudy" else "sunny"),
                σ "temperature" (if σ "cloudy" (Dist.bernoulli 0.3) = 1
                                 then Dist.normal 55 10 else Dist.normal 75 15)),
        trace := [ ⟨ "cloudy", Dist.bernoulli 0.3, σ "cloudy" (Dist.bernoulli 0.3), false⟩,
                   ⟨ "temperature",
                     (if σ "cloudy" (Dist.bernoulli 0.3) = 1
                      then Dist.normal 55 10 else Dist.normal 75 15),
                     σ "temperature" (if σ "cloudy" (Dist.bernoulli 0.3) = 1
                                      then Dist.normal 55 10 else Dist.normal 75 15),
                     false⟩ ],
        branches := 1 } := by
  by_cases h : σ "cloudy" (Dist.bernoulli 0.3) = 1 <;>
    simp [weather, h, List.lookup]

/-- C2 counterexample: with the concrete sampler answering every request
with 0, the execution of `ice_cream_sales` takes two data-dependent
branches, so the claim that no execution of the listed functions takes more
than one data-dependent branch is false. -/
theorem ice_cream_sales_two_branches_cex :
    ¬ (branchCount (ice_cream_sales zeroSampler) ≤ 1) := by decide

/-- C2 (amended): each listed function body contains at most one conditional
expression; an execution of `weather` takes exactly one data-dependent
branch, an execution of `ice_cream_sales` exactly two (its own conditional
plus the one inside its nested `weather` call), and executions of `scale`
(conditioned or not), `guide`, `NN.forward` and `BNN.forward` take none. -/
theorem branch_counts_amended {V : Type} (σ : Sampler) (store : ParamStore)
    (data : List (String × ℚ)) (view fc1 fc2 relu log_softmax : V → V)
    (sampleObsSite : V → Option V → V) (x : V) (y : Option V) :
    branchCount (weather σ) = 1 ∧
    branchCount (ice_cream_sales σ) = 2 ∧
    (scaleM data σ).branches = 0 ∧
    (guide store σ).1.branches = 0 ∧
    (Practical.nnForward view fc1 fc2 relu log_softmax x).2 = 0 ∧
    (Practical.bnnForward view fc1 fc2 relu log_softmax sampleObsSite x y).2 = 0 := by
  refine ⟨?_, ?_, rfl, rfl, rfl, rfl⟩
  · rw [weather_run]; rfl
  · simp [ice_cream_sales, weather_run, branchCount]

/-- C8: `conditioned_scale` (the `pyro.condition` of `scale` on measurement
14) and `scale_obs` coincide on every sampler: both draw `weight` from
Normal(10, 1.0), both fix the `measurement` site to the observed value 14,
and both return that measurement value. -/
theorem conditioned_scale_eq_scale_obs (σ : Sampler) :
    conditioned_scale σ = scale_obs σ ∧
    conditioned_scale σ =
      { val := 14,
        trace := [ ⟨ "weight", Dist.normal 10 1, σ "weight" (Dist.normal 10 1), false⟩,
                   ⟨ "measurement", Dist.normal (σ "weight" (Dist.normal 10 1)) 0.75, 14, true⟩ ],
        branches := 0 } := by
  constructor <;>
    simp [conditioned_scale, scale_obs, scaleM, sampleSite, sampleObs, List.lookup]

/-- C9: the analytical-posterior cell's loc expression evaluates exactly to
1256/100 = 12.56 in rational arithmetic, and the value under the square root
of its scale expression evaluates exactly to 9/25 = 0.36, whose nonnegative
square root is 3/5 = 0.6. -/
theorem analytical_posterior_exact :
    analyticalPosteriorLoc = 1256 / 100 ∧
    analyticalPosteriorLoc = 12.56 ∧
    analyticalPosteriorScaleSq = 9 / 25 ∧
    analyticalPosteriorScaleSq = 0.36 ∧
    ((3 : ℚ) / 5) ^ 2 = analyticalPosteriorScaleSq ∧
    (0 : ℚ) ≤ 3 / 5 ∧ (3 : ℚ) / 5 = 0.6 := by
  norm_num [analyticalPosteriorLoc, analyticalPosteriorScaleSq]

/-- C10: for every state of the parameter store (hence every value of the
trainable parameter b reached during training) and every sampler, the guide
passes the absolute value of b as the scale of the Normal it samples
`weight` from, and that scale is never negative. -/
theorem guide_abs_scale_nonneg (store : ParamStore) (σ : Sampler) :
    (guide store σ).1.trace =
      [ ⟨ "weight",
          Dist.normal (pyroParam "a" 1 store).1
            |(pyroParam "b" 1 (pyroParam "a" 1 store).2).1|,
          σ "weight" (Dist.normal (pyroParam "a" 1 store).1
            |(pyroParam "b" 1 (pyroParam "a" 1 store).2).1|),
          false⟩ ] ∧
    0 ≤ |(pyroParam "b" 1 (pyroParam "a" 1 store).2).1| :=
  ⟨rfl, abs_nonneg _⟩

end Intro

namespace Practical

/-- C5 counterexample: the claim fails at two concrete places.  Both
`datasets.MNIST` calls request download=True, so a network download of MNIST
is consumed (not merely literals and a bundled dataset); and the letters
cell of the BNN notebook contains plot calls yet is not a TODO stub, so not
every plot output is TODO-gated. -/
theorem notebook_io_cex :
    (train_dataset_args.download = true ∧ test_dataset_args.download = true) ∧
    SrcText.containsPlotCall SrcText.lettersCell = true ∧
    SrcText.isUnfinishedStub SrcText.lettersCell = false := by decide

/-- C5 (amended): the notebooks' inputs are hard-coded literals, the ten
bundled not-mnist letter images, and the MNIST dataset, which both
`datasets.MNIST` calls fetch with download=True (a network download) into
./data; their outputs are printed scalars and plots, and across every code
cell of the two notebooks the only cell containing a plot call that is not a
TODO-gated stub is the letters cell, which plots the bundled letter images
unconditionally. -/
theorem notebook_io_inventory :
    train_dataset_args = { root := "./data", train := true, download := true } ∧
    test_dataset_args = { root := "./data", train := false, download := true } ∧
    letterImagePaths =
      [ "data/not-mnist/a.png", "data/not-mnist/b.png", "data/not-mnist/c.png",
        "data/not-mnist/d.png", "data/not-mnist/e.png", "data/not-mnist/f.png",
        "data/not-mnist/g.png", "data/not-mnist/h.png", "data/not-mnist/i.png",
        "data/not-mnist/j.png" ] ∧
    (SrcText.allCodeCells.all
      (fun c => !(SrcText.containsPlotCall c) ||
                (SrcText.isUnfinishedStub c || c == SrcText.lettersCell))) = true ∧
    SrcText.containsPlotCall SrcText.lettersCell = true ∧
    SrcText.isUnfinishedStub SrcText.lettersCell = false := by
  refine ⟨rfl, rfl, by decide, by decide, by decide, by decide⟩

end Practical

namespace SrcText

/-- C6: a strict majority (twelve of thirteen) of the exercise tasks with
code cells in the two notebooks are unfinished TODO stubs — their cell's
last non-blank line is the bare TODO marker, with no solution written — and
the BNN guide function `guide(x, y=None)` has an empty body, so it returns
None for every input x and y. -/
theorem todo_stub_majority :
    2 * ((allTaskCells.filter (fun t => isUnfinishedStub t.cell)).length)
        > allTaskCells.length ∧
    (allTaskCells.filter (fun t => isUnfinishedStub t.cell)).length = 12 ∧
    allTaskCells.length = 13 ∧
    ∀ (α β : Type) (x : α) (y : Option β), Practical.bnnGuide x y = none := by
  refine ⟨by decide, by decide, by decide, ?_⟩
  intro α β x y
  rfl

/-- C7 counterexample: the BNN class is 24 source lines (18 non-blank), so
it is not under 15 lines on either counting convention. -/
theorem bnn_class_not_under_15_lines_cex :
    ¬ (sourceLineCount bnnClassSrc < 15 ∨ codeLineCount bnnClassSrc < 15) := by
  decide

/-- C7 (amended): weather (13 lines), ice_cream_sales (8), scale (4), guide
(7) and the NN class (15 lines with its two blank lines, 13 non-blank) are
each under 15 non-blank lines, but the BNN class is 24 lines (18 non-blank),
not under 15. -/
theorem source_line_counts :
    sourceLineCount weatherSrc = 13 ∧ codeLineCount weatherSrc = 10 ∧
    sourceLineCount iceCreamSalesSrc = 8 ∧
    sourceLineCount scaleSrc = 4 ∧
    sourceLineCount guideSrc = 7 ∧
    sourceLineCount nnClassSrc = 15 ∧ codeLineCount nnClassSrc = 13 ∧
    sourceLineCount bnnClassSrc = 24 ∧ codeLineCount bnnClassSrc = 18 := by
  decide

end SrcText

namespace Errors

open PyroModel

/-- C3: for the embedded repository functions, every exception raised by an
underlying-library call propagates unchanged to the caller: a run returns an
error exactly when one of its library calls raised that very error, so
nothing is caught, wrapped or suppressed, and the repository code raises no
error of its own (in particular the dictionary-lookup KeyError never
surfaces). -/
theorem error_propagation_spec {ε V : Type} (keyError : ε)
    (σ : FallibleSampler ε) (e : ε) (store : ParamStore)
    (view fc1 fc2 relu log_softmax : V → Except ε V)
    (sampleObsSite : V → Option V → Except ε V) (x : V) (y : Option V) :
    (weatherE keyError σ = Except.error e ↔
      σ "cloudy" (Dist.bernoulli 0.3) = Except.error e ∨
      ∃ c, σ "cloudy" (Dist.bernoulli 0.3) = Except.ok c ∧
        σ "temperature"
            (Dist.normal (Intro.weatherLoc c) (Intro.weatherScale c)) =
          Except.error e) ∧
    (scaleE σ = Except.error e ↔
      σ "weight" (Dist.normal 10 1) = Except.error e ∨
      ∃ w, σ "weight" (Dist.normal 10 1) = Except.ok w ∧
        σ "measurement" (Dist.normal w 0.75) = Except.error e) ∧
    ((guideE store σ).1 = Except.error e ↔
      σ "weight"
          (Dist.normal (pyroParam "a" 1 store).1
            |(pyroParam "b" 1 (pyroParam "a" 1 store).2).1|) =
        Except.error e) ∧
    (bnnForwardE view fc1 fc2 relu log_softmax sampleObsSite x y =
        Except.error e ↔
      view x = Except.error e ∨
      ∃ a, view x = Except.ok a ∧
        (fc1 a = Except.error e ∨
        ∃ b, fc1 a = Except.ok b ∧
          (relu b = Except.error e ∨
          ∃ c, relu b = Except.ok c ∧
            (fc2 c = Except.error e ∨
            ∃ d, fc2 c = Except.ok d ∧
              (log_softmax d = Except.error e ∨
              ∃ l, log_softmax d = Except.ok l ∧
                sampleObsSite l y = Except.error e))))) :=
  ⟨weatherE_error_iff keyError σ e, scaleE_error_iff σ e,
   guideE_error_iff store σ e,
   bnnForwardE_error_iff view fc1 fc2 relu log_softmax sampleObsSite x y e⟩

end Errors
